import Mathlib

/-!
# Verification of the uvccapture2 capture pipeline

A shallow embedding of `src/uvccapture2.cpp` (the V4L2 capture utility):
the streaming capture loop of `V4L2Device::capture`, the resolution parser
`V4L2Device::parse_resolution` (together with the `std::stoul` semantics it
relies on), the verbatim and recompress write paths of
`V4L2Device::write_jpeg` / `compress_jpeg`, the setjmp-based error
containment of `decompress_jpeg`, and the configuration checks of `main`.

External effects (ioctl results, epoll wake-ups, file-system outcomes,
libjpeg call outcomes) are passed in as explicit event data; the embedded
functions reproduce the source's control flow over those events.
-/

namespace Uvccapture2

/-- `kDefaultJPEGQuality` from the source. -/
def kDefaultJPEGQuality : Int := 75

/-- `kBuffersCount = 16 * 2` from the source. -/
def kBuffersCount : Nat := 16 * 2

/-! ## The capture loop of `V4L2Device::capture` -/

/-- Outcome of one `epoll_wait` call, as discriminated by the source:
`err` is a `-1` return, `zero` a `0` return, `bad` a wake-up whose event set
has `EPOLLERR`/`EPOLLHUP` set or `EPOLLIN` clear, and `ready` a normal
readiness wake-up. -/
inductive EpollOutcome
  | err
  | zero
  | bad
  | ready
  deriving DecidableEq, Repr

/-- The externally determined outcomes of one iteration of the streaming
loop: the `epoll_wait` result, whether the `VIDIOC_DQBUF` ioctl succeeds,
the boolean result of `write_jpeg` for this frame, and whether the
requeueing `VIDIOC_QBUF` ioctl succeeds. -/
structure IterEvent where
  epoll : EpollOutcome
  dqbufOk : Bool
  writeOk : Bool
  qbufOk : Bool
  deriving DecidableEq, Repr

/-- An iteration in which everything succeeds. -/
def allOk : IterEvent :=
  { epoll := .ready, dqbufOk := true, writeOk := true, qbufOk := true }

/-- An iteration that is dequeued and requeued normally but whose
`write_jpeg` call fails (e.g. a corrupted compressed frame). -/
def writeFailEv : IterEvent :=
  { epoll := .ready, dqbufOk := true, writeOk := false, qbufOk := true }

/-- The configuration values read at the top of the capture loop:
`loop`, `ignore-jpeg-errors`, `count` (default 1), `skip` (default 0) and
the pause converted to microseconds. -/
structure CaptureConfig where
  loopMode : Bool
  ignoreJpegErrors : Bool
  framesCount : Int
  framesToSkip : Int
  pause : Nat
  deriving DecidableEq, Repr

/-- The mutable session counters: the member field `frames_taken` and the
local `frames_skipped`. -/
structure CaptureState where
  framesTaken : Int
  framesSkipped : Int
  deriving DecidableEq, Repr

/-- Observation counters for the loop's externally visible actions:
successful `VIDIOC_DQBUF` dequeues, `VIDIOC_QBUF` requeue ioctl
invocations, `write_jpeg` invocations, and `usleep` pacing sleeps. -/
structure CaptureStats where
  dequeued : Nat
  requeueCalls : Nat
  writeCalls : Nat
  sleeps : Nat
  deriving DecidableEq, Repr

/-- The empty observation record. -/
def stats0 : CaptureStats := ⟨0, 0, 0, 0⟩

/-- Result of one loop iteration: `broke` if the iteration executed a
`break` (setting `status = false`), `continued` otherwise. -/
inductive StepResult
  | broke (st : CaptureState) (stats : CaptureStats)
  | continued (st : CaptureState) (stats : CaptureStats)
  deriving DecidableEq, Repr

/-- One iteration of the `while` body of `V4L2Device::capture`
(lines 161–218 of the source), driven by the iteration's event data. -/
def captureStep (cfg : CaptureConfig) (st : CaptureState) (stats : CaptureStats)
    (e : IterEvent) : StepResult :=
  match e.epoll with
  | .err => .broke st stats
  | .zero => .continued st stats
  | .bad => .broke st stats
  | .ready =>
    if e.dqbufOk = false then .broke st stats
    else
      let stats1 : CaptureStats := { stats with dequeued := stats.dequeued + 1 }
      if 0 < cfg.framesToSkip ∧ st.framesSkipped < cfg.framesToSkip then
        -- skip branch: count the frame as skipped, then requeue
        let st1 : CaptureState := { st with framesSkipped := st.framesSkipped + 1 }
        let stats2 : CaptureStats := { stats1 with requeueCalls := stats1.requeueCalls + 1 }
        if e.qbufOk = false then .broke st1 stats2
        else .continued st1 stats2
      else
        -- process branch: invoke write_jpeg
        let stats2 : CaptureStats := { stats1 with writeCalls := stats1.writeCalls + 1 }
        if e.writeOk = false ∧ cfg.ignoreJpegErrors = false then
          -- codec failure with errors not ignored: break before the requeue
          .broke st stats2
        else
          let st1 : CaptureState :=
            if e.writeOk then { st with framesTaken := st.framesTaken + 1 } else st
          let stats3 : CaptureStats := { stats2 with requeueCalls := stats2.requeueCalls + 1 }
          if e.qbufOk = false then .broke st1 stats3
          else
            let stats4 : CaptureStats :=
              if 0 < cfg.pause ∧ e.writeOk then { stats3 with sleeps := stats3.sleeps + 1 }
              else stats3
            .continued st1 stats4

/-- The state carried out of a step, whether it broke or continued. -/
def stepState : StepResult → CaptureState
  | .broke st _ => st
  | .continued st _ => st

/-- The stats carried out of a step, whether it broke or continued. -/
def stepStats : StepResult → CaptureStats
  | .broke _ stats => stats
  | .continued _ stats => stats

/-- Result of running the whole `while` loop: `done status` when the loop
exited (by its condition, with `status = true`, or by a `break`, with
`status = false`), and `pending` when the supplied event trace ran out
while the loop condition still held (e.g. an endless loop-mode session). -/
inductive LoopResult
  | done (status : Bool)
  | pending
  deriving DecidableEq, Repr

/-- The `while ((frames_taken < frames_count) or loop)` loop of
`V4L2Device::capture`, consuming one `IterEvent` per iteration. -/
def captureLoop (cfg : CaptureConfig) :
    List IterEvent → CaptureState → CaptureStats →
      LoopResult × CaptureState × CaptureStats
  | [], st, stats =>
    if st.framesTaken < cfg.framesCount ∨ cfg.loopMode then (.pending, st, stats)
    else (.done true, st, stats)
  | e :: rest, st, stats =>
    if st.framesTaken < cfg.framesCount ∨ cfg.loopMode then
      match captureStep cfg st stats e with
      | .broke st1 stats1 => (.done false, st1, stats1)
      | .continued st1 stats1 => captureLoop cfg rest st1 stats1
    else (.done true, st, stats)

/-- Result of a whole `capture()` call: `ret b` when the function returned
`b`; `pending` when the loop never terminated on the supplied trace. -/
inductive CaptureResult
  | ret (b : Bool)
  | pending
  deriving DecidableEq, Repr

/-- The externally determined outcomes of one `capture()` call: whether the
initial enqueueing of all `kBuffersCount` buffers succeeds, whether
`VIDIOC_STREAMON` succeeds, whether `epoll_create` and `epoll_ctl` succeed,
the per-iteration events of the streaming loop, and whether the final
`VIDIOC_STREAMOFF` succeeds. -/
structure CaptureRun where
  initQbufOk : Bool
  streamonOk : Bool
  epollCreateOk : Bool
  epollCtlOk : Bool
  events : List IterEvent
  streamoffOk : Bool
  deriving Repr

/-- `V4L2Device::capture` in full (fresh device, `frames_taken = 0`).
Returns the function result, the final counters, the loop observation
record, and the number of `VIDIOC_STREAMOFF` ioctl invocations. -/
def capture (cfg : CaptureConfig) (run : CaptureRun) :
    CaptureResult × CaptureState × CaptureStats × Nat :=
  if run.initQbufOk = false then (.ret false, ⟨0, 0⟩, stats0, 0)
  else if run.streamonOk = false then (.ret false, ⟨0, 0⟩, stats0, 0)
  else if run.epollCreateOk = false then (.ret false, ⟨0, 0⟩, stats0, 0)
  else if run.epollCtlOk = false then (.ret false, ⟨0, 0⟩, stats0, 0)
  else
    match captureLoop cfg run.events ⟨0, 0⟩ stats0 with
    | (.pending, st, stats) => (.pending, st, stats, 0)
    | (.done status, st, stats) =>
      if run.streamoffOk = false then (.ret false, st, stats, 1)
      else (.ret status, st, stats, 1)

/-! ## `V4L2Device::parse_resolution` and the `std::stoul` it relies on -/

/-- The C-locale `isspace` set skipped by `strtoul`. -/
def isSpaceChar (c : Char) : Bool :=
  c == ' ' || c == '\t' || c == '\n' || c == '\x0b' || c == '\x0c' || c == '\r'

/-- Decimal value of a digit string, most significant first. -/
def digitsToNat (l : List Char) : Nat :=
  l.foldl (fun a c => a * 10 + (c.toNat - '0'.toNat)) 0

/-- Outcome of `std::stoul`: a value, or one of the two exceptions the
source catches. -/
inductive StoulResult
  | ok (v : Nat)
  | invalidArgument
  | outOfRange
  deriving DecidableEq, Repr

/-- `std::stoul(s)` with base 10 on a 64-bit `unsigned long`: skip leading
whitespace, accept one optional sign, then require at least one decimal
digit; further characters are ignored. A `-` sign negates modulo `2^64`;
a magnitude above `ULONG_MAX` raises `out_of_range`. -/
def stoul (s : List Char) : StoulResult :=
  let s1 := s.dropWhile isSpaceChar
  let s2 := if s1.head? = some '-' ∨ s1.head? = some '+' then s1.tail else s1
  let digits := s2.takeWhile Char.isDigit
  if digits = [] then .invalidArgument
  else
    let v := digitsToNat digits
    if 2 ^ 64 - 1 < v then .outOfRange
    else .ok (if s1.head? = some '-' then (2 ^ 64 - v) % 2 ^ 64 else v)

/-- `std::string::find` for a single character: index of its first
occurrence, if any. -/
def findChar (c : Char) : List Char → Option Nat
  | [] => none
  | a :: as => if a = c then some 0 else (findChar c as).map (· + 1)

/-- `V4L2Device::parse_resolution`: locate the first `x`, require at least
one character after it, split, and run `std::stoul` on both parts; the
results are assigned to `uint32_t` fields, i.e. reduced modulo `2^32`.
If the first conversion throws, neither value is assigned; if only the
second throws, the first assignment is kept. -/
def parse_resolution (resolution : List Char) : Bool × Nat × Nat :=
  match findChar 'x' resolution with
  | none => (false, 0, 0)
  | some d =>
    if d + 1 < resolution.length then
      let x_str := resolution.take d
      let y_str := resolution.drop (d + 1)
      match stoul x_str with
      | .ok vx =>
        match stoul y_str with
        | .ok vy => (true, vx % 2 ^ 32, vy % 2 ^ 32)
        | _ => (false, vx % 2 ^ 32, 0)
      | _ => (false, 0, 0)
    else (false, 0, 0)

/-- `V4L2Device::set_format`: parse the resolution, and only on success
issue the `VIDIOC_S_FMT` ioctl (whose outcome is `sfmtOk`). Returns the
boolean result and the number of `VIDIOC_S_FMT` invocations. -/
def set_format (resolution : List Char) (sfmtOk : Bool) : Bool × Nat :=
  let parsed := parse_resolution resolution
  if parsed.1 = false then (false, 0)
  else if sfmtOk = false then (false, 1)
  else (true, 1)

/-! ## The verbatim write path of `V4L2Device::write_jpeg` -/

/-- The `save-jpeg-asis` branch of `V4L2Device::write_jpeg`: open the
destination with `trunc | binary | out` and report failure when the open
failed (`result.fail()` after construction, outcome `openOk`); then issue
one `fstream::write` of the frame's bytes (outcome `writeOk`). The stream
is constructed with the default exception mask, so a failed write only
sets `badbit` and never throws: the surrounding `catch` cannot fire for
stream I/O errors and the function returns `true` regardless of
`writeOk`, with the truncated destination holding only the prefix of
`bytesWritten` bytes the failed write managed to emit. Returns the
boolean result and the destination file's contents. -/
def write_jpeg_asis (frame : List Nat) (openOk writeOk : Bool)
    (bytesWritten : Nat) : Bool × Option (List Nat) :=
  if openOk = false then (false, none)
  else if writeOk = false then (true, some (frame.take bytesWritten))
  else (true, some frame)

/-! ## `V4L2Device::decompress_jpeg` and its setjmp error containment -/

/-- The decoded-image record returned by the decode stage. -/
structure RawImageModel where
  width : Nat
  height : Nat
  deriving DecidableEq, Repr

/-- The externally determined behaviour of the libjpeg decoder for one
`decompress_jpeg` call. A `fatal` outcome at some call means the library
invokes the installed `error_exit` callback (`jpeg_error_exit_cb`), which
`longjmp`s back to the `setjmp` point. `readHeader` is the value returned
by `jpeg_read_header` when it returns at all. -/
structure DecodeEnv where
  createFatal : Bool
  readHeader : Option Nat
  startFatal : Bool
  scanlineFatal : Bool
  finishFatal : Bool
  outWidth : Nat
  outHeight : Nat
  deriving DecidableEq, Repr

/-- `V4L2Device::decompress_jpeg`: returns the `(ok, image)` pair of the
source together with whether `jpeg_destroy_decompress` was called on the
context before returning. Every `longjmp` lands in the `setjmp` branch,
which destroys the context and returns `(false, std::move(image))` —
`image` is still null for fatals raised before the raw image allocation
(context creation, header read, decompress start), but a fatal during
scanline reading or finalization returns the already allocated, partially
filled image. The `rc != 1` "broken JPEG" return path does not destroy
the context. -/
def decompress_jpeg (env : DecodeEnv) :
    (Bool × Option RawImageModel) × Bool :=
  if env.createFatal then ((false, none), true)
  else
    match env.readHeader with
    | none => ((false, none), true)
    | some rc =>
      if rc ≠ 1 then ((false, none), false)
      else if env.startFatal then ((false, none), true)
      else if env.scanlineFatal then
        ((false, some ⟨env.outWidth, env.outHeight⟩), true)
      else if env.finishFatal then
        ((false, some ⟨env.outWidth, env.outHeight⟩), true)
      else ((true, some ⟨env.outWidth, env.outHeight⟩), true)

/-- The codec library signals an internal fatal error at some point during
this `decompress_jpeg` call (i.e. execution reaches the `setjmp` handler). -/
def fatalSignaled (env : DecodeEnv) : Prop :=
  env.createFatal = true
  ∨ (env.createFatal = false ∧ env.readHeader = none)
  ∨ (env.createFatal = false ∧ env.readHeader = some 1 ∧ env.startFatal = true)
  ∨ (env.createFatal = false ∧ env.readHeader = some 1 ∧ env.startFatal = false
      ∧ env.scanlineFatal = true)
  ∨ (env.createFatal = false ∧ env.readHeader = some 1 ∧ env.startFatal = false
      ∧ env.scanlineFatal = false ∧ env.finishFatal = true)

instance (env : DecodeEnv) : Decidable (fatalSignaled env) := by
  unfold fatalSignaled; infer_instance

/-! ## `V4L2Device::compress_jpeg` -/

/-- `V4L2Device::compress_jpeg`: create the encoder context, `fopen` the
destination (outcome `openOk`); on success configure dimensions and
quality (the `--quality` option when given, else the default), write all
`image.height` scanlines, finish, `fclose`, and return `true`. The
outcomes of the scanline writes (`scanlineWriteOk`), of finalization
(`finishOk`) and of `fclose` (`closeOk`) are never consulted. Returns the
boolean result, the number of scanline rows pushed, and the quality used. -/
def compress_jpeg (image : RawImageModel) (openOk : Bool)
    (hasQuality : Bool) (qualityOpt : Int)
    (scanlineWriteOk : List Bool) (finishOk closeOk : Bool) :
    Bool × Nat × Int :=
  if openOk = false then (false, 0, 0)
  else
    let quality := if hasQuality then qualityOpt else kDefaultJPEGQuality
    (true, image.height, quality)

/-! ## The configuration checks of `main` -/

/-- The configuration facts `main` consults before device setup. -/
structure MainConfig where
  hasHelp : Bool
  hasQuality : Bool
  quality : Int
  hasResult : Bool
  deriving DecidableEq, Repr

/-- The pre-device portion of `main`: `--help` prints and exits
successfully; a present out-of-range `--quality` fails; a missing
`--result` fails; otherwise the device phase runs (its combined
initialize-and-capture outcome abstracted as `deviceResult`). Returns
whether the process exits successfully and how many times the device
phase (device construction and `open`) was entered. -/
def mainRun (cfg : MainConfig) (deviceResult : Bool) : Bool × Nat :=
  if cfg.hasHelp then (true, 0)
  else if cfg.hasQuality = true ∧ (cfg.quality < 0 ∨ 100 < cfg.quality) then (false, 0)
  else if cfg.hasResult = false then (false, 0)
  else (deviceResult, 1)

/-! ## Helper lemmas about the capture loop -/

/-- When loop mode is off and the requested count is already reached, the
loop exits immediately with `status = true`, consuming no events. -/
theorem captureLoop_exits (cfg : CaptureConfig) (evs : List IterEvent)
    (st : CaptureState) (stats : CaptureStats)
    (hL : cfg.loopMode = false) (hc : ¬ st.framesTaken < cfg.framesCount) :
    captureLoop cfg evs st stats = (.done true, st, stats) := by
  cases evs <;> simp [captureLoop, hL, hc]

/-- A loop iteration whose step `continued` recurses on the rest of the
trace with the updated state. -/
theorem captureLoop_cons_continued (cfg : CaptureConfig) (e : IterEvent)
    (rest : List IterEvent) (st : CaptureState) (stats : CaptureStats)
    (st1 : CaptureState) (stats1 : CaptureStats)
    (hc : st.framesTaken < cfg.framesCount ∨ cfg.loopMode = true)
    (hstep : captureStep cfg st stats e = .continued st1 stats1) :
    captureLoop cfg (e :: rest) st stats = captureLoop cfg rest st1 stats1 := by
  simp [captureLoop, hc, hstep]

/-- A loop iteration whose step `broke` ends the loop with `status = false`. -/
theorem captureLoop_cons_broke (cfg : CaptureConfig) (e : IterEvent)
    (rest : List IterEvent) (st : CaptureState) (stats : CaptureStats)
    (st1 : CaptureState) (stats1 : CaptureStats)
    (hc : st.framesTaken < cfg.framesCount ∨ cfg.loopMode = true)
    (hstep : captureStep cfg st stats e = .broke st1 stats1) :
    captureLoop cfg (e :: rest) st stats = (.done false, st1, stats1) := by
  simp [captureLoop, hc, hstep]

/-- A fully successful iteration under an open skip quota: the frame is
counted as skipped, dequeued and requeued; `write_jpeg` is not called and
no pacing sleep happens. -/
theorem captureStep_allOk_skip (cfg : CaptureConfig) (t s : Int) (d r w sl : Nat)
    (hK : 0 < cfg.framesToSkip) (hs : s < cfg.framesToSkip) :
    captureStep cfg ⟨t, s⟩ ⟨d, r, w, sl⟩ allOk =
      .continued ⟨t, s + 1⟩ ⟨d + 1, r + 1, w, sl⟩ := by
  simp [captureStep, allOk, hK, hs]

/-- A fully successful iteration with the skip quota exhausted (or absent):
the frame is persisted, `frames_taken` increments, the slot is requeued,
and a pacing sleep happens when a positive pause is configured. -/
theorem captureStep_allOk_proc (cfg : CaptureConfig) (t s : Int) (d r w sl : Nat)
    (hK : ¬(0 < cfg.framesToSkip ∧ s < cfg.framesToSkip)) :
    captureStep cfg ⟨t, s⟩ ⟨d, r, w, sl⟩ allOk =
      .continued ⟨t + 1, s⟩
        ⟨d + 1, r + 1, w + 1, if 0 < cfg.pause then sl + 1 else sl⟩ := by
  by_cases hp : 0 < cfg.pause <;> simp [captureStep, allOk, hK, hp]

/-- An iteration whose `write_jpeg` fails while errors are not ignored:
the loop breaks after the dequeue and the failed write, before the
requeue; the counters are unchanged. -/
theorem captureStep_writeFail_strict (cfg : CaptureConfig) (t s : Int)
    (d r w sl : Nat)
    (hK : ¬(0 < cfg.framesToSkip ∧ s < cfg.framesToSkip))
    (hi : cfg.ignoreJpegErrors = false) :
    captureStep cfg ⟨t, s⟩ ⟨d, r, w, sl⟩ writeFailEv =
      .broke ⟨t, s⟩ ⟨d + 1, r, w + 1, sl⟩ := by
  simp [captureStep, writeFailEv, hK, hi]

/-- An iteration whose `write_jpeg` fails while errors are ignored: the
loop continues, `frames_taken` is unchanged, the slot is requeued, and no
pacing sleep happens. -/
theorem captureStep_writeFail_ignored (cfg : CaptureConfig) (t s : Int)
    (d r w sl : Nat)
    (hK : ¬(0 < cfg.framesToSkip ∧ s < cfg.framesToSkip))
    (hi : cfg.ignoreJpegErrors = true) :
    captureStep cfg ⟨t, s⟩ ⟨d, r, w, sl⟩ writeFailEv =
      .continued ⟨t, s⟩ ⟨d + 1, r + 1, w + 1, sl⟩ := by
  simp [captureStep, writeFailEv, hK, hi]

/-- Running `k` fully successful iterations while the skip quota stays
open consumes `k` events, counts `k` skipped frames, performs `k`
dequeue/requeue pairs, and never calls `write_jpeg` or sleeps. -/
theorem captureLoop_skipRun (cfg : CaptureConfig) (k : Nat) :
    ∀ (rest : List IterEvent) (t s : Int) (d r w sl : Nat),
    0 < cfg.framesToSkip →
    s + k ≤ cfg.framesToSkip →
    t < cfg.framesCount →
    captureLoop cfg (List.replicate k allOk ++ rest) ⟨t, s⟩ ⟨d, r, w, sl⟩ =
      captureLoop cfg rest ⟨t, s + k⟩ ⟨d + k, r + k, w, sl⟩ := by
  induction k with
  | zero =>
    intro rest t s d r w sl _ _ _
    simp
  | succ n ih =>
    intro rest t s d r w sl hK hk hc
    have hs : s < cfg.framesToSkip := by omega
    rw [List.replicate_succ, List.cons_append,
      captureLoop_cons_continued cfg allOk _ _ _ _ _ (Or.inl hc)
        (captureStep_allOk_skip cfg t s d r w sl hK hs),
      ih rest t (s + 1) (d + 1) (r + 1) w sl hK (by omega) hc]
    have h1 : s + 1 + (n : Int) = s + ((n + 1 : Nat) : Int) := by push_cast; ring
    have h2 : d + 1 + n = d + (n + 1) := by omega
    have h3 : r + 1 + n = r + (n + 1) := by omega
    rw [h1, h2, h3]

/-- Running `k` fully successful iterations with the skip quota exhausted
(or absent) consumes `k` events, persists `k` frames, performs `k`
dequeue/requeue pairs and `k` `write_jpeg` calls, and sleeps `k` times
when a positive pause is configured. -/
theorem captureLoop_procRun (cfg : CaptureConfig) (k : Nat) :
    ∀ (rest : List IterEvent) (t s : Int) (d r w sl : Nat),
    ¬(0 < cfg.framesToSkip ∧ s < cfg.framesToSkip) →
    t + k ≤ cfg.framesCount →
    captureLoop cfg (List.replicate k allOk ++ rest) ⟨t, s⟩ ⟨d, r, w, sl⟩ =
      captureLoop cfg rest ⟨t + k, s⟩
        ⟨d + k, r + k, w + k, sl + (if 0 < cfg.pause then k else 0)⟩ := by
  induction k with
  | zero =>
    intro rest t s d r w sl _ _
    by_cases hp : 0 < cfg.pause <;> simp [hp]
  | succ n ih =>
    intro rest t s d r w sl hK hk
    have hc : t < cfg.framesCount := by omega
    rw [List.replicate_succ, List.cons_append,
      captureLoop_cons_continued cfg allOk _ _ _ _ _ (Or.inl hc)
        (captureStep_allOk_proc cfg t s d r w sl hK),
      ih rest (t + 1) s (d + 1) (r + 1) (w + 1)
        (if 0 < cfg.pause then sl + 1 else sl) hK (by omega)]
    have h1 : t + 1 + (n : Int) = t + ((n + 1 : Nat) : Int) := by push_cast; ring
    have h2 : d + 1 + n = d + (n + 1) := by omega
    have h3 : r + 1 + n = r + (n + 1) := by omega
    have h4 : w + 1 + n = w + (n + 1) := by omega
    by_cases hp : 0 < cfg.pause
    · simp only [if_pos hp]
      have h5 : sl + 1 + n = sl + (n + 1) := by omega
      rw [h1, h2, h3, h4, h5]
    · simp only [if_neg hp]
      rw [h1, h2, h3, h4]

/-- `captureLoop_procRun` specialized to a run starting at the initial
state with explicit configuration fields. -/
theorem captureLoop_procRun0 (lm ig : Bool) (c K : Int) (p : Nat) (k : Nat)
    (rest : List IterEvent)
    (hK : ¬(0 < K ∧ (0 : Int) < K)) (hk : (k : Int) ≤ c) :
    captureLoop ⟨lm, ig, c, K, p⟩ (List.replicate k allOk ++ rest) ⟨0, 0⟩ ⟨0, 0, 0, 0⟩ =
      captureLoop ⟨lm, ig, c, K, p⟩ rest ⟨(k : Int), 0⟩
        ⟨k, k, k, if 0 < p then k else 0⟩ := by
  simpa using
    captureLoop_procRun ⟨lm, ig, c, K, p⟩ k rest 0 0 0 0 0 0
      (by simpa using hK) (by simpa using hk)

/-! ## Claim C1 -/

/-- C1: with requested count 5 and skip quota 2 (loop-mode off), on a trace
where every dequeue, requeue and per-frame write succeeds, the capture loop
performs exactly 7 dequeue/requeue cycles; the first 2 frames are counted
as skipped with the codec pipeline (`write_jpeg`) not invoked for them,
exactly 5 frames are persisted, and this breakdown is the same for every
pacing value and whichever value `ignore-jpeg-errors` has. -/
theorem c1_count5_skip2_breakdown (ig : Bool) (p n : Nat) (hn : 7 ≤ n) :
    captureLoop ⟨false, ig, 5, 2, p⟩ (List.replicate n allOk) ⟨0, 0⟩ ⟨0, 0, 0, 0⟩ =
      (.done true, ⟨5, 2⟩, ⟨7, 7, 5, if 0 < p then 5 else 0⟩) := by
  obtain ⟨m, rfl⟩ : ∃ m, n = 2 + (5 + m) := ⟨n - 7, by omega⟩
  rw [List.replicate_add, List.replicate_add,
    captureLoop_skipRun _ 2 _ 0 0 0 0 0 0 (by norm_num) (by norm_num) (by norm_num)]
  norm_num
  rw [List.replicate_add,
    captureLoop_procRun _ 5 _ 0 2 2 2 0 0 (by norm_num) (by norm_num)]
  norm_num
  rw [captureLoop_exits _ _ _ _ rfl (by norm_num)]

/-- Witness for C1 at `n = 9`, `p = 3`. -/
theorem c1_count5_skip2_breakdown_witness :
    captureLoop ⟨false, false, 5, 2, 3⟩ (List.replicate 9 allOk) ⟨0, 0⟩ ⟨0, 0, 0, 0⟩ =
      (.done true, ⟨5, 2⟩, ⟨7, 7, 5, 5⟩) := by
  simpa using c1_count5_skip2_breakdown false 3 9 (by norm_num)

/-! ## Claim C2 -/

/-- C2: in every iteration of the capture loop, `frames_taken` increments
exactly when the iteration reached a successfully dequeued frame, the skip
quota did not apply, and `write_jpeg` persisted the frame successfully; it
never increments on a skipped frame nor on a codec failure (whether or not
codec errors are ignored); and incrementing `frames_taken` and
incrementing `frames_skipped` are mutually exclusive per iteration. -/
theorem c2_taken_iff_persisted (cfg : CaptureConfig) (st : CaptureState)
    (stats : CaptureStats) (e : IterEvent) :
    ((stepState (captureStep cfg st stats e)).framesTaken = st.framesTaken + 1 ↔
      e.epoll = .ready ∧ e.dqbufOk = true
        ∧ ¬(0 < cfg.framesToSkip ∧ st.framesSkipped < cfg.framesToSkip)
        ∧ e.writeOk = true)
    ∧ ¬((stepState (captureStep cfg st stats e)).framesTaken ≠ st.framesTaken
        ∧ (stepState (captureStep cfg st stats e)).framesSkipped ≠ st.framesSkipped) := by
  obtain ⟨ep, dq, wr, qb⟩ := e
  by_cases hK : 0 < cfg.framesToSkip ∧ st.framesSkipped < cfg.framesToSkip <;>
    cases ep <;> cases dq <;> cases wr <;> cases qb <;>
      cases hi : cfg.ignoreJpegErrors <;>
        by_cases hp : 0 < cfg.pause <;>
          simp [captureStep, stepState, hK, hi, hp]

/-! ## Claim C3 -/

/-- C3: in a session with no skip quota and requested count `a + b`
(loop-mode off), where the first `a` frames succeed, frame `a + 1` fails
codec processing, and the remaining frames succeed: with
`ignore-jpeg-errors` off the loop terminates at exactly the failing frame
(it is dequeued but nothing after it is consumed) and the session result
is failure; with `ignore-jpeg-errors` on the session continues past the
failed frame without counting it, persists the remaining `b` frames, and
reports overall success. -/
theorem c3_codec_failure_policy (a b p : Nat) (tail : List IterEvent)
    (hb : 1 ≤ b) :
    capture ⟨false, false, (a : Int) + (b : Int), 0, p⟩
        ⟨true, true, true, true,
          List.replicate a allOk ++ writeFailEv :: (List.replicate b allOk ++ tail), true⟩ =
      (.ret false, ⟨(a : Int), 0⟩, ⟨a + 1, a, a + 1, if 0 < p then a else 0⟩, 1)
    ∧ capture ⟨false, true, (a : Int) + (b : Int), 0, p⟩
        ⟨true, true, true, true,
          List.replicate a allOk ++ writeFailEv :: (List.replicate b allOk ++ tail), true⟩ =
      (.ret true, ⟨(a : Int) + (b : Int), 0⟩,
        ⟨a + 1 + b, a + 1 + b, a + 1 + b, if 0 < p then a + b else 0⟩, 1) := by
  have hK0 : ¬((0 : Int) < 0 ∧ (0 : Int) < 0) := by norm_num
  have hloop1 : captureLoop ⟨false, false, (a : Int) + (b : Int), 0, p⟩
      (List.replicate a allOk ++ writeFailEv :: (List.replicate b allOk ++ tail))
      ⟨0, 0⟩ ⟨0, 0, 0, 0⟩ =
      (.done false, ⟨(a : Int), 0⟩, ⟨a + 1, a, a + 1, if 0 < p then a else 0⟩) := by
    rw [captureLoop_procRun0 false false ((a : Int) + (b : Int)) 0 p a
        (writeFailEv :: (List.replicate b allOk ++ tail)) hK0 (by omega),
      captureLoop_cons_broke ⟨false, false, (a : Int) + (b : Int), 0, p⟩ writeFailEv
        (List.replicate b allOk ++ tail)
        ⟨(a : Int), 0⟩ ⟨a, a, a, if 0 < p then a else 0⟩
        ⟨(a : Int), 0⟩ ⟨a + 1, a, a + 1, if 0 < p then a else 0⟩
        (Or.inl (show (a : Int) < (a : Int) + (b : Int) by omega))
        (captureStep_writeFail_strict ⟨false, false, (a : Int) + (b : Int), 0, p⟩
          (a : Int) 0 a a a (if 0 < p then a else 0) hK0 rfl)]
  have hloop2 : captureLoop ⟨false, true, (a : Int) + (b : Int), 0, p⟩
      (List.replicate a allOk ++ writeFailEv :: (List.replicate b allOk ++ tail))
      ⟨0, 0⟩ ⟨0, 0, 0, 0⟩ =
      (.done true, ⟨(a : Int) + (b : Int), 0⟩,
        ⟨a + 1 + b, a + 1 + b, a + 1 + b, if 0 < p then a + b else 0⟩) := by
    rw [captureLoop_procRun0 false true ((a : Int) + (b : Int)) 0 p a
        (writeFailEv :: (List.replicate b allOk ++ tail)) hK0 (by omega),
      captureLoop_cons_continued ⟨false, true, (a : Int) + (b : Int), 0, p⟩ writeFailEv
        (List.replicate b allOk ++ tail)
        ⟨(a : Int), 0⟩ ⟨a, a, a, if 0 < p then a else 0⟩
        ⟨(a : Int), 0⟩ ⟨a + 1, a + 1, a + 1, if 0 < p then a else 0⟩
        (Or.inl (show (a : Int) < (a : Int) + (b : Int) by omega))
        (captureStep_writeFail_ignored ⟨false, true, (a : Int) + (b : Int), 0, p⟩
          (a : Int) 0 a a a (if 0 < p then a else 0) hK0 rfl),
      captureLoop_procRun ⟨false, true, (a : Int) + (b : Int), 0, p⟩ b tail
        (a : Int) 0 (a + 1) (a + 1) (a + 1) (if 0 < p then a else 0) hK0
        (show (a : Int) + (b : Int) ≤ (a : Int) + (b : Int) by omega),
      captureLoop_exits ⟨false, true, (a : Int) + (b : Int), 0, p⟩ tail
        ⟨(a : Int) + (b : Int), 0⟩ _ rfl
        (show ¬((a : Int) + (b : Int) < (a : Int) + (b : Int)) by omega)]
    by_cases hp : 0 < p <;> simp [hp]
  constructor
  · simp [capture, stats0, hloop1]
  · simp [capture, stats0, hloop2]

/-- Witness for C3 at `a = 1`, `b = 1`, `p = 0`, empty tail. -/
theorem c3_codec_failure_policy_witness :
    capture ⟨false, false, 2, 0, 0⟩
        ⟨true, true, true, true, [allOk, writeFailEv, allOk], true⟩ =
      (.ret false, ⟨1, 0⟩, ⟨2, 1, 2, 0⟩, 1)
    ∧ capture ⟨false, true, 2, 0, 0⟩
        ⟨true, true, true, true, [allOk, writeFailEv, allOk], true⟩ =
      (.ret true, ⟨2, 0⟩, ⟨3, 3, 3, 0⟩, 1) := by
  have h := c3_codec_failure_policy 1 1 0 [] (by norm_num)
  simpa using h

/-! ## Claim C4 -/

/-- C4 counterexample: `VIDIOC_STREAMON` succeeds, then `epoll_create`
fails; `capture()` returns `false` without ever issuing
`VIDIOC_STREAMOFF` (the streamoff invocation count is 0), contradicting
the claim that stream-off is issued exactly once whenever stream-on
succeeded, including failures while setting up the readiness-notification
mechanism. -/
theorem c4_counterexample :
    (⟨true, true, false, true, [], true⟩ : CaptureRun).streamonOk = true
    ∧ capture ⟨false, false, 1, 0, 0⟩ ⟨true, true, false, true, [], true⟩ =
        (.ret false, ⟨0, 0⟩, ⟨0, 0, 0, 0⟩, 0) := by
  exact ⟨rfl, rfl⟩

/-- C4 (amended): for every execution of `capture()` in which the initial
buffer enqueueing, stream-on, and the readiness-notification setup
(`epoll_create` and `epoll_ctl`) all succeed and the streaming loop
terminates, stream-off is issued exactly once regardless of how the loop
ended, and a stream-off failure makes the overall result a failure even if
the loop succeeded; when `epoll_create` or `epoll_ctl` fails after a
successful stream-on, however, the function returns failure without
issuing stream-off. -/
theorem c4_streamoff_exactly_once (cfg : CaptureConfig) (run : CaptureRun)
    (status : Bool) (st : CaptureState) (stats : CaptureStats)
    (h1 : run.initQbufOk = true) (h2 : run.streamonOk = true)
    (h3 : run.epollCreateOk = true) (h4 : run.epollCtlOk = true)
    (hloop : captureLoop cfg run.events ⟨0, 0⟩ stats0 = (.done status, st, stats)) :
    (capture cfg run).2.2.2 = 1
    ∧ (run.streamoffOk = false → (capture cfg run).1 = .ret false)
    ∧ (run.streamoffOk = true → (capture cfg run).1 = .ret status) := by
  cases hso : run.streamoffOk <;>
    simp [capture, h1, h2, h3, h4, hloop, hso]

/-- Witness for C4 (amended) with an empty trace and a failing stream-off. -/
theorem c4_streamoff_exactly_once_witness :
    (capture ⟨false, false, 0, 0, 0⟩ ⟨true, true, true, true, [], false⟩).2.2.2 = 1
    ∧ (capture ⟨false, false, 0, 0, 0⟩ ⟨true, true, true, true, [], false⟩).1 =
        .ret false := by
  have h := c4_streamoff_exactly_once ⟨false, false, 0, 0, 0⟩
    ⟨true, true, true, true, [], false⟩ true ⟨0, 0⟩ ⟨0, 0, 0, 0⟩
    rfl rfl rfl rfl (by decide)
  exact ⟨h.1, h.2.1 rfl⟩

/-! ## Claim C5 -/

/-- C5 counterexample: a frame is successfully dequeued, its codec
processing fails while `ignore-jpeg-errors` is off, and the loop breaks
before the requeue: one successful dequeue, zero requeue ioctl calls —
the dequeued slot is not returned to the driver's queue, contradicting
the claim that a successfully dequeued slot is requeued unconditionally,
including when codec processing failed. -/
theorem c5_counterexample :
    (captureLoop ⟨false, false, 1, 0, 0⟩ [writeFailEv] ⟨0, 0⟩ ⟨0, 0, 0, 0⟩).2.2.dequeued = 1
    ∧ (captureLoop ⟨false, false, 1, 0, 0⟩ [writeFailEv] ⟨0, 0⟩ ⟨0, 0, 0, 0⟩).2.2.requeueCalls = 0 := by
  exact ⟨rfl, rfl⟩

/-- C5 (amended): in every iteration that completes (frame skipped, frame
persisted, or codec failure with errors ignored) the requeue ioctl is
invoked exactly as many times as a buffer was dequeued, so the driver's
pool does not shrink across completed iterations; but in an iteration
whose codec processing fails while errors are not ignored, the loop breaks
after the dequeue and before the requeue, leaving that one slot
un-requeued. -/
theorem c5_requeue_policy (cfg : CaptureConfig) (st st1 : CaptureState)
    (stats stats1 : CaptureStats) (e : IterEvent) :
    (captureStep cfg st stats e = .continued st1 stats1 →
      (stats1.dequeued = stats.dequeued + 1 ∧ stats1.requeueCalls = stats.requeueCalls + 1)
      ∨ (stats1.dequeued = stats.dequeued ∧ stats1.requeueCalls = stats.requeueCalls))
    ∧ (e.epoll = .ready → e.dqbufOk = true → e.writeOk = false →
        cfg.ignoreJpegErrors = false →
        ¬(0 < cfg.framesToSkip ∧ st.framesSkipped < cfg.framesToSkip) →
        captureStep cfg st stats e =
          .broke st ⟨stats.dequeued + 1, stats.requeueCalls, stats.writeCalls + 1,
            stats.sleeps⟩) := by
  obtain ⟨ep, dq, wr, qb⟩ := e
  constructor
  · by_cases hK : 0 < cfg.framesToSkip ∧ st.framesSkipped < cfg.framesToSkip <;>
      cases ep <;> cases dq <;> cases wr <;> cases qb <;>
        cases hi : cfg.ignoreJpegErrors <;>
          by_cases hp : 0 < cfg.pause <;>
            simp [captureStep, hK, hi, hp] <;>
              rintro rfl rfl <;> simp
  · intro hep hdq hwr hi hK
    cases hep; cases hdq; cases hwr
    simp [captureStep, hK, hi]

/-- Witness for C5 (amended): the strict codec-failure branch at a
concrete state. -/
theorem c5_requeue_policy_witness :
    captureStep ⟨false, false, 2, 0, 0⟩ ⟨0, 0⟩ ⟨0, 0, 0, 0⟩ writeFailEv =
      .broke ⟨0, 0⟩ ⟨1, 0, 1, 0⟩ := by
  simpa using
    (c5_requeue_policy ⟨false, false, 2, 0, 0⟩ ⟨0, 0⟩ ⟨0, 0⟩ ⟨0, 0, 0, 0⟩
      ⟨0, 0, 0, 0⟩ writeFailEv).2 rfl rfl rfl rfl (by norm_num)

/-! ## Claim C6 -/

/-- `findChar` on a list whose first occurrence of `c` sits right after a
`c`-free block returns that block's length. -/
theorem findChar_append (c : Char) (ws hs : List Char) (h : c ∉ ws) :
    findChar c (ws ++ c :: hs) = some ws.length := by
  induction ws with
  | nil => simp [findChar]
  | cons a as ih =>
    simp only [List.mem_cons, not_or] at h
    have hac : ¬ a = c := fun hh => h.1 hh.symm
    simp [findChar, hac, ih h.2]

/-- `findChar` misses when the character does not occur. -/
theorem findChar_eq_none (c : Char) (s : List Char) (h : c ∉ s) :
    findChar c s = none := by
  induction s with
  | nil => rfl
  | cons a as ih =>
    simp only [List.mem_cons, not_or] at h
    have hac : ¬ a = c := fun hh => h.1 hh.symm
    simp [findChar, hac, ih h.2]

/-- `takeWhile` keeps a list all of whose elements satisfy the predicate. -/
theorem takeWhile_of_all {α : Type} (p : α → Bool) (l : List α)
    (h : l.all p = true) : l.takeWhile p = l := by
  induction l with
  | nil => rfl
  | cons a as ih =>
    simp only [List.all_cons, Bool.and_eq_true] at h
    simp [List.takeWhile_cons, h.1, ih h.2]

/-- Dropping a `c`-free block plus the `c` itself leaves the suffix. -/
theorem drop_append_cons (ws hs : List Char) (c : Char) :
    (ws ++ c :: hs).drop (ws.length + 1) = hs := by
  induction ws with
  | nil => simp
  | cons a t ih => simpa using ih

/-- Taking a block's length from the front of an append returns the block. -/
theorem take_append_cons (ws hs : List Char) (c : Char) :
    (ws ++ c :: hs).take ws.length = ws := by
  induction ws with
  | nil => simp
  | cons a t ih => simpa using ih

/-- A decimal digit is not in the whitespace class `strtoul` skips. -/
theorem isSpaceChar_eq_false_of_isDigit (c : Char) (h : c.isDigit = true) :
    isSpaceChar c = false := by
  rcases Bool.eq_false_or_eq_true (isSpaceChar c) with ht | hf
  · exfalso
    simp only [isSpaceChar, Bool.or_eq_true, beq_iff_eq] at ht
    rcases ht with ((((h1 | h1) | h1) | h1) | h1) | h1 <;> subst h1 <;>
      exact absurd h (by decide)
  · exact hf

/-- A decimal digit is not the minus sign. -/
theorem isDigit_ne_minus (c : Char) (h : c.isDigit = true) : c ≠ '-' := by
  rintro rfl; exact absurd h (by decide)

/-- A decimal digit is not the plus sign. -/
theorem isDigit_ne_plus (c : Char) (h : c.isDigit = true) : c ≠ '+' := by
  rintro rfl; exact absurd h (by decide)

/-- `std::stoul` on a nonempty all-digit string whose value fits in an
`unsigned long` returns exactly its decimal value. -/
theorem stoul_digits (l : List Char) (hne : l ≠ [])
    (hd : l.all Char.isDigit = true) (hv : digitsToNat l < 2 ^ 64) :
    stoul l = .ok (digitsToNat l) := by
  obtain ⟨c, t, rfl⟩ := List.exists_cons_of_ne_nil hne
  have hdc : c.isDigit = true := by
    simp only [List.all_cons, Bool.and_eq_true] at hd
    exact hd.1
  have hsp : isSpaceChar c = false := isSpaceChar_eq_false_of_isDigit c hdc
  have hm : c ≠ '-' := isDigit_ne_minus c hdc
  have hpl : c ≠ '+' := isDigit_ne_plus c hdc
  have hnlt : ¬(2 ^ 64 - 1 < digitsToNat (c :: t)) := by omega
  simp [stoul, List.dropWhile_cons, hsp, hm, hpl, hnlt,
    takeWhile_of_all Char.isDigit (c :: t) hd]
  omega

/-- On a `width x height` input with nonempty all-digit components whose
values fit in an `unsigned long`, `parse_resolution` succeeds with the two
decimal values reduced modulo `2^32` (the `uint32_t` assignment). -/
theorem parse_resolution_digits (ws hs : List Char)
    (hw : ws ≠ []) (hh : hs ≠ []) (hdw : ws.all Char.isDigit = true)
    (hdh : hs.all Char.isDigit = true)
    (hvw : digitsToNat ws < 2 ^ 64) (hvh : digitsToNat hs < 2 ^ 64) :
    parse_resolution (ws ++ 'x' :: hs) =
      (true, digitsToNat ws % 2 ^ 32, digitsToNat hs % 2 ^ 32) := by
  have hx : 'x' ∉ ws := by
    intro hmem
    have hxd := List.all_eq_true.mp hdw _ hmem
    exact absurd hxd (by decide)
  have hlen : ws.length + 1 < (ws ++ 'x' :: hs).length := by
    have hpos : 0 < hs.length := List.length_pos.mpr hh
    simp only [List.length_append, List.length_cons]
    omega
  simp only [parse_resolution, findChar_append 'x' ws hs hx]
  rw [if_pos hlen, take_append_cons, drop_append_cons,
    stoul_digits ws hw hdw hvw, stoul_digits hs hh hdh hvh]

/-- Without an `x` separator, `parse_resolution` fails with `(0, 0)`. -/
theorem parse_resolution_no_sep (s : List Char) (h : 'x' ∉ s) :
    parse_resolution s = (false, 0, 0) := by
  simp [parse_resolution, findChar_eq_none 'x' s h]

/-- A width component on which `std::stoul` throws `invalid_argument`
makes `parse_resolution` fail. -/
theorem parse_resolution_bad_first (ws hs : List Char) (hx : 'x' ∉ ws)
    (hinv : stoul ws = .invalidArgument) :
    (parse_resolution (ws ++ 'x' :: hs)).1 = false := by
  by_cases h0 : 0 < hs.length <;>
    simp [parse_resolution, findChar_append 'x' ws hs hx,
      take_append_cons, hinv, h0]

/-- A height component on which `std::stoul` throws `invalid_argument`
makes `parse_resolution` fail. -/
theorem parse_resolution_bad_second (ws hs : List Char) (hx : 'x' ∉ ws)
    (hinv : stoul hs = .invalidArgument) :
    (parse_resolution (ws ++ 'x' :: hs)).1 = false := by
  cases hws : stoul ws <;> by_cases h0 : 0 < hs.length <;>
    simp [parse_resolution, findChar_append 'x' ws hs hx,
      take_append_cons, drop_append_cons, hws, hinv, h0]

/-- C6 counterexample: `"4294967296x480p"` has a numeric width and a
non-numeric height component (`"480p"`), yet `parse_resolution` succeeds —
`std::stoul` accepts the numeric prefix `480` — and the width
`4294967296 = 2^32` is silently truncated to `0` by the `uint32_t`
assignment: the result is `(true, 0, 480)`, not a failure and not the
exact requested pair. -/
theorem c6_counterexample :
    parse_resolution ("4294967296x480p".toList) = (true, 0, 480)
    ∧ ("480p".toList.all Char.isDigit) = false := by
  constructor <;> rfl

/-- C6 (amended): for every `WxH` string both of whose components are
nonempty digit strings with values below `2^64`, parsing succeeds with
exactly that pair of values reduced modulo `2^32`; for every string with
no `x`, parsing fails with `(0, 0)`; for every string whose width or
height component has no numeric prefix (`std::stoul` throws
`invalid_argument`), parsing fails; and whenever parsing fails the
format-negotiation ioctl (`VIDIOC_S_FMT`) is not attempted. -/
theorem c6_parse_resolution_amended :
    (∀ ws hs : List Char, ws ≠ [] → hs ≠ [] →
      ws.all Char.isDigit = true → hs.all Char.isDigit = true →
      digitsToNat ws < 2 ^ 64 → digitsToNat hs < 2 ^ 64 →
      parse_resolution (ws ++ 'x' :: hs) =
        (true, digitsToNat ws % 2 ^ 32, digitsToNat hs % 2 ^ 32))
    ∧ (∀ s : List Char, 'x' ∉ s → parse_resolution s = (false, 0, 0))
    ∧ (∀ ws hs : List Char, 'x' ∉ ws → stoul ws = .invalidArgument →
        (parse_resolution (ws ++ 'x' :: hs)).1 = false)
    ∧ (∀ ws hs : List Char, 'x' ∉ ws → stoul hs = .invalidArgument →
        (parse_resolution (ws ++ 'x' :: hs)).1 = false)
    ∧ (∀ (s : List Char) (b : Bool), (parse_resolution s).1 = false →
        set_format s b = (false, 0)) :=
  ⟨parse_resolution_digits, parse_resolution_no_sep,
   parse_resolution_bad_first, parse_resolution_bad_second,
   fun s b h => by simp [set_format, h]⟩

/-- Witness for C6 (amended) on concrete strings. -/
theorem c6_parse_resolution_amended_witness :
    parse_resolution ("640".toList ++ 'x' :: "480".toList) =
      (true, digitsToNat ("640".toList) % 2 ^ 32, digitsToNat ("480".toList) % 2 ^ 32)
    ∧ parse_resolution ("640480".toList) = (false, 0, 0)
    ∧ (parse_resolution ("pq".toList ++ 'x' :: "480".toList)).1 = false
    ∧ (parse_resolution ("640".toList ++ 'x' :: "pq".toList)).1 = false
    ∧ set_format ("640480".toList) true = (false, 0) := by
  refine ⟨c6_parse_resolution_amended.1 _ _ (by decide) (by decide) (by decide)
      (by decide) (by decide) (by decide),
    c6_parse_resolution_amended.2.1 _ (by decide),
    c6_parse_resolution_amended.2.2.1 _ _ (by decide) (by decide),
    c6_parse_resolution_amended.2.2.2.1 _ _ (by decide) (by decide),
    c6_parse_resolution_amended.2.2.2.2 _ true (by decide)⟩

/-! ## Claim C7 -/

/-- C7 counterexample: a fatal codec error signaled during scanline
reading — after the raw image allocation at line 538 of the source —
lands in the `setjmp` branch, which returns the partially filled image
alongside the failure flag: the result is `((false, some image), true)`,
not the claimed "(false, with no raw image)". -/
theorem c7_counterexample :
    fatalSignaled ⟨false, some 1, false, true, false, 640, 480⟩
    ∧ decompress_jpeg ⟨false, some 1, false, true, false, 640, 480⟩ =
        ((false, some ⟨640, 480⟩), true) :=
  ⟨Or.inr (Or.inr (Or.inr (Or.inl ⟨rfl, rfl, rfl, rfl⟩))), rfl⟩

/-- C7 (amended): whenever the codec library signals an internal fatal
error during a `decompress_jpeg` call (the `error_exit` callback fires
and `longjmp`s back to the `setjmp` point), the function returns a
structured failure (`ok = false`) to its caller instead of letting the
codec's own error path terminate the process, and
`jpeg_destroy_decompress` is called on the decoder context before
returning; the raw-image component of the failure is null exactly when
the fatal error fires before the raw image allocation (context creation,
header read, decompress start), while a fatal during scanline reading or
finalization returns the already allocated, partially filled raw image
alongside the failure. -/
theorem c7_decompress_fatal_contained (env : DecodeEnv)
    (h : fatalSignaled env) :
    (decompress_jpeg env).1.1 = false
    ∧ (decompress_jpeg env).2 = true
    ∧ ((env.createFatal = true ∨ env.readHeader = none ∨ env.startFatal = true) →
        (decompress_jpeg env).1.2 = none)
    ∧ (env.createFatal = false → env.readHeader = some 1 →
        env.startFatal = false →
        (decompress_jpeg env).1.2 = some ⟨env.outWidth, env.outHeight⟩) := by
  obtain ⟨cf, rh, sf, scf, ff, w, hgt⟩ := env
  rcases h with h1 | ⟨h1, h2⟩ | ⟨h1, h2, h3⟩ | ⟨h1, h2, h3, h4⟩
    | ⟨h1, h2, h3, h4, h5⟩ <;>
    simp_all [decompress_jpeg]

/-- Witness for C7 (amended): an early fatal (inside `jpeg_read_header`)
returns a null image; a late fatal (inside `jpeg_finish_decompress`)
returns the allocated image — both as structured failures with the
context destroyed. -/
theorem c7_decompress_fatal_contained_witness :
    ((decompress_jpeg ⟨false, none, false, false, false, 640, 480⟩).1.1 = false
      ∧ (decompress_jpeg ⟨false, none, false, false, false, 640, 480⟩).2 = true
      ∧ (decompress_jpeg ⟨false, none, false, false, false, 640, 480⟩).1.2 = none)
    ∧ ((decompress_jpeg ⟨false, some 1, false, false, true, 640, 480⟩).1.1 = false
      ∧ (decompress_jpeg ⟨false, some 1, false, false, true, 640, 480⟩).1.2 =
          some ⟨640, 480⟩) := by
  have h1 := c7_decompress_fatal_contained ⟨false, none, false, false, false, 640, 480⟩
    (Or.inr (Or.inl ⟨rfl, rfl⟩))
  have h2 := c7_decompress_fatal_contained ⟨false, some 1, false, false, true, 640, 480⟩
    (Or.inr (Or.inr (Or.inr (Or.inr ⟨rfl, rfl, rfl, rfl, rfl⟩))))
  exact ⟨⟨h1.1, h1.2.1, h1.2.2.1 (Or.inr (Or.inl rfl))⟩,
    ⟨h2.1, h2.2.2.2 rfl rfl rfl⟩⟩

/-! ## Claim C8 -/

/-- C8 counterexample: the destination opens successfully but the single
`fstream::write` of the three-byte frame fails after emitting nothing.
With the stream's default exception mask the failure only sets `badbit`
and never throws, so the `catch` does not fire and `write_jpeg` returns
`true` — the frame's write failure is not reported as failure, and the
file does not contain the frame's bytes — contradicting the claim's "any
open or write failure is reported as failure for that frame". -/
theorem c8_counterexample :
    write_jpeg_asis [10, 20, 30] true false 0 = (true, some []) := rfl

/-- C8 (amended): in verbatim (`save-jpeg-asis`) mode, a successful
open-and-write stores exactly the frame's bytes byte-for-byte in the
truncated-on-open destination; an open failure is reported as a `false`
result for that frame, leaving `frames_taken` unchanged in the capture
loop; a write failure, however, is not detected — the stream's default
exception mask means no exception is thrown — and the function returns
`true` even though the destination holds only the prefix the failed write
managed to emit. -/
theorem c8_verbatim_write (frame : List Nat) (openOk writeOk : Bool)
    (bytesWritten : Nat) :
    (openOk = true → writeOk = true →
      write_jpeg_asis frame openOk writeOk bytesWritten = (true, some frame))
    ∧ (openOk = false →
      (write_jpeg_asis frame openOk writeOk bytesWritten).1 = false)
    ∧ (openOk = true →
      (write_jpeg_asis frame openOk writeOk bytesWritten).1 = true)
    ∧ (∀ (cfg : CaptureConfig) (st : CaptureState) (stats : CaptureStats)
        (e : IterEvent), e.writeOk = false →
        (stepState (captureStep cfg st stats e)).framesTaken = st.framesTaken) := by
  refine ⟨?_, ?_, ?_, ?_⟩
  · rintro rfl rfl; rfl
  · rintro rfl; rfl
  · rintro rfl; cases writeOk <;> rfl
  · intro cfg st stats e hw
    obtain ⟨ep, dq, wr, qb⟩ := e
    cases hw
    by_cases hK : 0 < cfg.framesToSkip ∧ st.framesSkipped < cfg.framesToSkip <;>
      cases ep <;> cases dq <;> cases qb <;> cases hi : cfg.ignoreJpegErrors <;>
        simp [captureStep, stepState, hK, hi]

/-- Witness for C8 (amended) on a concrete three-byte frame. -/
theorem c8_verbatim_write_witness :
    write_jpeg_asis [10, 20, 30] true true 3 = (true, some [10, 20, 30])
    ∧ (write_jpeg_asis [10, 20, 30] false true 0).1 = false
    ∧ (write_jpeg_asis [10, 20, 30] true false 1).1 = true
    ∧ (stepState (captureStep ⟨false, true, 1, 0, 0⟩ ⟨0, 0⟩ ⟨0, 0, 0, 0⟩
        writeFailEv)).framesTaken = 0 :=
  ⟨(c8_verbatim_write [10, 20, 30] true true 3).1 rfl rfl,
   (c8_verbatim_write [10, 20, 30] false true 0).2.1 rfl,
   (c8_verbatim_write [10, 20, 30] true false 1).2.2.1 rfl,
   (c8_verbatim_write [10, 20, 30] true true 3).2.2.2 ⟨false, true, 1, 0, 0⟩
     ⟨0, 0⟩ ⟨0, 0, 0, 0⟩ writeFailEv rfl⟩

/-! ## Claim C9 -/

/-- C9 counterexample: a configuration that also requests `--help` and
carries the out-of-range quality 200 makes the process print the help text
and exit successfully — it does not report failure — because the `--help`
check precedes the quality and result checks; likewise a help-requesting
configuration missing `--result` exits successfully. -/
theorem c9_counterexample :
    ((200 : Int) < 0 ∨ (100 : Int) < 200)
    ∧ mainRun ⟨true, true, 200, true⟩ true = (true, 0)
    ∧ mainRun ⟨true, false, 0, false⟩ true = (true, 0) := by
  refine ⟨Or.inr (by norm_num), rfl, rfl⟩

/-- C9 (amended): for every configuration that does not request help, a
present quality value outside 0–100 makes the process report failure
before any device interaction (the device phase is never entered), and a
missing mandatory `--result` option likewise makes the process report
failure before any device interaction. -/
theorem c9_config_errors_fatal (cfg : MainConfig) (deviceResult : Bool)
    (hh : cfg.hasHelp = false) :
    (cfg.hasQuality = true → (cfg.quality < 0 ∨ 100 < cfg.quality) →
      mainRun cfg deviceResult = (false, 0))
    ∧ (cfg.hasResult = false → mainRun cfg deviceResult = (false, 0)) := by
  constructor
  · intro hq hrange
    simp [mainRun, hh, hq, hrange]
  · intro hr
    by_cases hq : cfg.hasQuality = true ∧ (cfg.quality < 0 ∨ 100 < cfg.quality) <;>
      simp [mainRun, hh, hq, hr]

/-- Witness for C9 (amended) at quality 200 and at a missing result
template. -/
theorem c9_config_errors_fatal_witness :
    mainRun ⟨false, true, 200, true⟩ true = (false, 0)
    ∧ mainRun ⟨false, false, 0, false⟩ true = (false, 0) :=
  ⟨(c9_config_errors_fatal ⟨false, true, 200, true⟩ true rfl).1 rfl
      (Or.inr (by norm_num)),
   (c9_config_errors_fatal ⟨false, false, 0, false⟩ true rfl).2 rfl⟩

/-! ## Claim C10 -/

/-- C10: `compress_jpeg` returns failure exactly when opening the
destination file fails; once the file is open it returns success with all
`image.height` scanline rows pushed and the configured (or default 75)
quality applied, regardless of the outcomes of the scanline writes, of
finalization, and of `fclose` — no write error is detected or reported. -/
theorem c10_compress_open_only (image : RawImageModel) (openOk hasQuality : Bool)
    (qualityOpt : Int) (scanlineWriteOk : List Bool) (finishOk closeOk : Bool) :
    ((compress_jpeg image openOk hasQuality qualityOpt scanlineWriteOk
        finishOk closeOk).1 = false ↔ openOk = false)
    ∧ (openOk = true →
        compress_jpeg image openOk hasQuality qualityOpt scanlineWriteOk
            finishOk closeOk =
          (true, image.height,
            if hasQuality then qualityOpt else kDefaultJPEGQuality)) := by
  cases openOk <;> simp [compress_jpeg]

/-- Witness for C10: an open success with failing writes still succeeds. -/
theorem c10_compress_open_only_witness :
    compress_jpeg ⟨640, 480⟩ true false 0 [false, false] false false =
      (true, 480, 75) := by
  have h := (c10_compress_open_only ⟨640, 480⟩ true false 0 [false, false]
    false false).2 rfl
  simpa [kDefaultJPEGQuality] using h

end Uvccapture2
